import Mathlib

/-!
Verification of the signaling and session-lifecycle subsystem of the
AI-Proctoring-System repository: a shallow embedding in Lean 4 of the
room-admission state machine (`src/services/room.service.ts`), the
signaling/negotiation layer (`WebRTCService`, `src/services/webrtc.service.ts`)
and the orchestrating hook (`src/hooks/useWebRTC.ts`), together with proofs
and refutations of the specified properties.

Conventions of the embedding:
  * Firestore documents become Lean structures; `null` becomes `Option.none`.
  * `updateDoc` on an existing document becomes a structure update.
  * `setDoc` (without merge) becomes full replacement of the document value.
  * JavaScript `Date.now()` / `serverTimestamp()` become explicit `Int`
    clock parameters.
  * `uuidv4()` becomes an explicit `String` parameter assumed fresh by the
    caller (freshness is made explicit in theorem hypotheses where needed).
  * `Math.floor(x / 1000)` on integer `x` becomes `Int.fdiv x 1000`
    (floor division, rounding toward negative infinity, exactly as
    `Math.floor` on an exact quotient).
  * JavaScript truthiness of a nullable string (`if (s)`) is `truthyStr`.
-/

namespace AIProctoring

/-- Room lifecycle status, from `RoomStatus` in `src/types/index.ts`:
`"waiting" | "active" | "ended"`. -/
inductive RoomStatus
  | waiting
  | active
  | ended
deriving DecidableEq, Repr

/-- A room document, from the `Room` interface in `src/types/index.ts`
(the `roomId` key of the document is kept outside the value, as in the
Firestore document model). -/
structure Room where
  createdBy : String
  joinedBy : Option String
  sessionId : Option String
  startedAt : Option Int
  endedAt : Option Int
  duration : Option Int
  status : RoomStatus
  recordingUrl : Option String
deriving DecidableEq, Repr

/-- JavaScript truthiness of a nullable string: `null` and `""` are falsy. -/
def truthyStr : Option String → Bool
  | none => false
  | some s => s ≠ ""

/-- Function `roomService.createRoom` (room.service.ts): the freshly written
room document — status `waiting`, every optional field `null`. -/
def createRoom (createdBy : String) : Room :=
  { createdBy := createdBy
  , joinedBy := none
  , sessionId := none
  , startedAt := none
  , endedAt := none
  , duration := none
  , status := .waiting
  , recordingUrl := none }

/-- The error kinds thrown by `roomService.validateRoom` (room.service.ts),
named as in the spec's admission-error taxonomy. -/
inductive AdmissionError
  | roomNotFound
  | roomAlreadyEnded
  | roomFull
  | selfJoin
deriving DecidableEq, Repr

/-- Function `roomService.validateRoom` (room.service.ts): the read-only admission
check. The checks run in source order: missing document, ended status,
occupied by a different (truthy) joiner, self-join. -/
def validateRoom (roomOpt : Option Room) (joiningUserId : String) :
    Except AdmissionError Room :=
  match roomOpt with
  | none => .error .roomNotFound
  | some room =>
    if room.status = .ended then .error .roomAlreadyEnded
    else if truthyStr room.joinedBy ∧ room.joinedBy ≠ some joiningUserId then
      .error .roomFull
    else if room.createdBy = joiningUserId then .error .selfJoin
    else .ok room

/-- Function `roomService.joinRoom` (room.service.ts): one unconditional `updateDoc`
that sets `joinedBy`, a freshly generated `sessionId`, `startedAt` (server
clock) and `status: "active"`, then returns the fresh session id. There is
no read, no conditional write and no failure path. -/
def joinRoom (room : Room) (joiningUserId freshSessionId : String)
    (serverNow : Int) : Room × String :=
  ({ room with
      joinedBy := some joiningUserId
    , sessionId := some freshSessionId
    , startedAt := some serverNow
    , status := .active }, freshSessionId)

/-- Function `roomService.endRoom` (room.service.ts): recomputes
`duration = Math.floor((now - startedAtMs) / 1000)` from the current clock,
sets `status: "ended"` and `endedAt`, and spreads `recordingUrl` into the
update only when it is truthy. -/
def endRoom (room : Room) (startedAtMs : Int) (recordingUrl : Option String)
    (now : Int) : Room :=
  let duration := Int.fdiv (now - startedAtMs) 1000
  { room with
      status := .ended
    , endedAt := some now
    , duration := some duration
    , recordingUrl :=
        if truthyStr recordingUrl then recordingUrl else room.recordingUrl }

/-- One mutating room-service operation (the two that touch the lifecycle
fields of an existing room document). -/
inductive RoomOp
  | join (joiningUserId freshSessionId : String) (serverNow : Int)
  | endCall (startedAtMs : Int) (recordingUrl : Option String) (now : Int)
deriving DecidableEq, Repr

/-- Applying a room-service operation directly, exactly as the service
methods execute it (no admission check: `joinRoom` never re-reads the
document). -/
def applyOp (room : Room) : RoomOp → Room
  | .join u s t => (joinRoom room u s t).1
  | .endCall st url now => endRoom room st url now

/-- Applying a room-service operation along the validated UI path: a join is
attempted only after `validateRoom` on the current room succeeds (this is the
advisory check-then-act pair of the lobby flow); ending a call is
unconditional, as in the source. -/
def guardedApplyOp (room : Room) : RoomOp → Room
  | .join u s t =>
    match validateRoom (some room) u with
    | .ok _ => (joinRoom room u s t).1
    | .error _ => room
  | .endCall st url now => endRoom room st url now

/-- Numeric rank of a status along the documented forward order
`waiting → active → ended`. -/
def statusRank : RoomStatus → Nat
  | .waiting => 0
  | .active => 1
  | .ended => 2

-- ── Signaling layer (webrtc.service.ts) ──────────────────────────────────────

/-- An SDP session description relayed through the store
(`RTCSessionDescriptionInit`: a type tag plus the SDP body). -/
structure SessionDescription where
  descType : String
  sdp : String
deriving DecidableEq, Repr

/-- The per-room signal document at `/rooms/{roomId}/signal/data`, from the
`SignalData` interface in `src/types/index.ts`. -/
structure SignalData where
  offer : Option SessionDescription
  answer : Option SessionDescription
deriving DecidableEq, Repr

/-- A serialized ICE candidate, from the `IceCandidate` interface in
`src/types/index.ts`. -/
structure IceCandidate where
  candidate : String
  sdpMid : Option String
  sdpMLineIndex : Option Int
deriving DecidableEq, Repr

/-- The offer write in `WebRTCService.createOffer` (webrtc.service.ts):
`setDoc(SIGNAL_DOC_PATH(roomId), { offer, answer: null })` replaces the whole
signal document with the new offer and a `null` answer, regardless of what
the document currently contains. There is no existence check and no failure
path. -/
def publishOffer (_currentDoc : Option SignalData) (offer : SessionDescription) :
    SignalData :=
  { offer := some offer, answer := none }

/-- Outcome of the callee's offer acquisition in
`WebRTCService.createAnswer`: resolved by the initial `getDoc`, resolved by a
later snapshot of the subscription, or still waiting (no snapshot carried an
offer yet). -/
inductive AwaitOfferOutcome
  | immediate (offer : SessionDescription)
  | viaSubscription (offer : SessionDescription)
  | pending
deriving DecidableEq, Repr

/-- The snapshot callback loop of `createAnswer`'s wait branch: each snapshot
is ignored unless the document exists and carries a truthy `offer`; the first
offer seen resolves the promise (and unsubscribes). -/
def resolveOfferFromSnapshots : List (Option SignalData) → AwaitOfferOutcome
  | [] => .pending
  | none :: rest => resolveOfferFromSnapshots rest
  | some data :: rest =>
    match data.offer with
    | some o => .viaSubscription o
    | none => resolveOfferFromSnapshots rest

/-- The offer-acquisition step of `WebRTCService.createAnswer`
(webrtc.service.ts): first a one-shot `getDoc` — if the document exists and
has an offer, `setupAnswer` runs immediately with it and the method returns;
otherwise it subscribes with `onSnapshot` and resolves on the first snapshot
carrying an offer. `currentDoc` is the document at call time; `snapshots` is
the stream the subscription would deliver. -/
def awaitOffer (currentDoc : Option SignalData)
    (snapshots : List (Option SignalData)) : AwaitOfferOutcome :=
  match currentDoc with
  | some data =>
    match data.offer with
    | some o => .immediate o
    | none => resolveOfferFromSnapshots snapshots
  | none => resolveOfferFromSnapshots snapshots

-- ── Candidate application on the caller path (createOffer) ───────────────────

/-- The signaling-relevant state of the underlying peer-connection primitive:
the currently applied remote description and the candidates successfully
applied so far. -/
structure PeerConnectionSignaling where
  remoteDescription : Option SessionDescription
  appliedCandidates : List IceCandidate
deriving DecidableEq, Repr

/-- Environment model of the browser primitive `addIceCandidate`, following
the spec's stated assumption about the underlying connection object: a
candidate delivered before a remote description has been applied is rejected;
afterwards candidates are accepted and attached. -/
def addIceCandidate (pc : PeerConnectionSignaling) (c : IceCandidate) :
    Except String PeerConnectionSignaling :=
  match pc.remoteDescription with
  | none => .error "addIceCandidate called before setRemoteDescription"
  | some _ => .ok { pc with appliedCandidates := pc.appliedCandidates ++ [c] }

/-- The caller-side negotiation state during `createOffer`'s listening phase:
the peer connection plus the candidates whose application was rejected (the
code has no queue for them — on the caller path the rejection is an unhandled
promise rejection, on the callee path it is caught and logged; either way the
candidate is dropped). -/
structure CallerNegotiation where
  pc : PeerConnectionSignaling
  droppedCandidates : List IceCandidate
deriving DecidableEq, Repr

/-- One event delivered to the caller's two `onSnapshot` listeners installed
by `createOffer`: a signal-document snapshot carrying an answer, or an added
callee-candidate document. -/
inductive CallerEvent
  | answerSnapshot (answer : SessionDescription)
  | calleeCandidateAdded (c : IceCandidate)
deriving DecidableEq, Repr

/-- The answer listener of `createOffer` (webrtc.service.ts): on a snapshot,
`if (data?.answer && !this.pc.currentRemoteDescription)` apply the answer as
the remote description exactly once; later snapshots are ignored. -/
def onAnswerSnapshot (st : CallerNegotiation) (answer : SessionDescription) :
    CallerNegotiation :=
  match st.pc.remoteDescription with
  | none => { st with pc := { st.pc with remoteDescription := some answer } }
  | some _ => st

/-- The callee-candidate listener of `createOffer` (webrtc.service.ts): every
added candidate document is handed directly to `addIceCandidate`. There is no
local buffer: a candidate the primitive rejects is dropped and nothing ever
re-applies it. -/
def onCalleeCandidateAdded (st : CallerNegotiation) (c : IceCandidate) :
    CallerNegotiation :=
  match addIceCandidate st.pc c with
  | .ok pc2 => { st with pc := pc2 }
  | .error _ => { st with droppedCandidates := st.droppedCandidates ++ [c] }

/-- Event dispatch for the caller's listening phase. -/
def callerStep (st : CallerNegotiation) : CallerEvent → CallerNegotiation
  | .answerSnapshot a => onAnswerSnapshot st a
  | .calleeCandidateAdded c => onCalleeCandidateAdded st c

-- ── Peer-connection ownership (createPeerConnection) ─────────────────────────

/-- An RTCPeerConnection instance as owned by `WebRTCService`: object
identity and the identity of the `onRemoteTrack` callback registered on it at
creation. Identities are abstracted as numbers. -/
structure PeerConnectionObj where
  pcId : Nat
  onRemoteTrackCb : Nat
deriving DecidableEq, Repr

/-- The `pc` field of a `WebRTCService` instance (webrtc.service.ts):
`null` until `createPeerConnection` runs, then the single owned
connection. -/
structure WebRTCServiceState where
  pc : Option PeerConnectionObj
deriving DecidableEq, Repr

/-- Method `WebRTCService.createPeerConnection` (webrtc.service.ts): if
`this.pc` already exists it warns and returns the existing connection
unchanged — the newly supplied `onRemoteTrack` callback is never installed;
otherwise it constructs a fresh connection, registers the callback on it, and
stores it. -/
def createPeerConnection (st : WebRTCServiceState) (onRemoteTrackCb : Nat)
    (freshPcId : Nat) : WebRTCServiceState × PeerConnectionObj :=
  match st.pc with
  | some p => (st, p)
  | none =>
    let p : PeerConnectionObj := { pcId := freshPcId, onRemoteTrackCb := onRemoteTrackCb }
    ({ st with pc := some p }, p)

-- ── The useWebRTC hook (useWebRTC.ts) ────────────────────────────────────────

/-- Call status from the `CallState` interface in `src/types/index.ts`:
`"idle" | "connecting" | "connected" | "ended" | "error"`. -/
inductive CallStatus
  | idle
  | connecting
  | connected
  | ended
  | error
deriving DecidableEq, Repr

/-- The `CallState` interface from `src/types/index.ts`. -/
structure CallState where
  status : CallStatus
  error : Option String
  durationSeconds : Nat
deriving DecidableEq, Repr

/-- The `CallControls` interface from `src/types/index.ts`. -/
structure CallControls where
  isMicEnabled : Bool
  isCameraEnabled : Bool
deriving DecidableEq, Repr

/-- The state owned by the `useWebRTC` hook (useWebRTC.ts): the two stream
slots (stream object identities abstracted as numbers), the call state, the
controls, the `serviceRef` slot and the duration timer. -/
structure UseWebRTCState where
  localStream : Option Nat
  remoteStream : Option Nat
  callState : CallState
  controls : CallControls
  serviceAttached : Bool
  durationTimerActive : Bool
deriving DecidableEq, Repr

/-- Callback `hangUp` of the `useWebRTC` hook (useWebRTC.ts), as the state
transformer its setter calls amount to once applied: stop local tracks and
clear `localStream` if present, stop remote tracks and clear `remoteStream`
if present, close and drop the service, stop the duration timer, set
`callState.status` to `"ended"` (keeping the other call-state fields), and
reset both controls to disabled. -/
def hangUp (st : UseWebRTCState) : UseWebRTCState :=
  let st1 :=
    match st.localStream with
    | some _ => { st with localStream := none }
    | none => st
  let st2 :=
    match st1.remoteStream with
    | some _ => { st1 with remoteStream := none }
    | none => st1
  let st3 := { st2 with serviceAttached := false, durationTimerActive := false }
  let st4 := { st3 with callState := { st3.callState with status := .ended } }
  { st4 with controls := { isMicEnabled := false, isCameraEnabled := false } }

-- ── Theorems ─────────────────────────────────────────────────────────────────

/-- C1 (counterexample): `joinRoom` performs no conditional write. Starting
from a fresh room already joined by `"u2"`, a join by the different user
`"u3"` succeeds (returns its fresh session id) and silently overwrites the
stored joiner — there is no `RoomJoinConflict` outcome in the code. -/
theorem C1_counterexample_join_overwrites :
    ((joinRoom (createRoom "u1") "u2" "s1" 100).1).joinedBy = some "u2" ∧
    (joinRoom ((joinRoom (createRoom "u1") "u2" "s1" 100).1) "u3" "s2" 200).2 = "s2" ∧
    ((joinRoom ((joinRoom (createRoom "u1") "u2" "s1" 100).1) "u3" "s2" 200).1).joinedBy
      = some "u3" :=
  ⟨rfl, rfl, rfl⟩

/-- C1 (amended): `joinRoom` is one unconditional update with no re-check and
no failure path: whatever interleaving two `joinRoom` calls with different
joiner identifiers take, both succeed (each returns its fresh session id) and
the later write silently overwrites the joiner; no `RoomJoinConflict` error
kind exists. -/
theorem C1_joinRoom_no_conflict_check (room : Room) (u1 s1 : String) (t1 : Int)
    (u2 s2 : String) (t2 : Int) :
    (joinRoom room u1 s1 t1).2 = s1 ∧
    (joinRoom ((joinRoom room u1 s1 t1).1) u2 s2 t2).2 = s2 ∧
    ((joinRoom ((joinRoom room u1 s1 t1).1) u2 s2 t2).1).joinedBy = some u2 :=
  ⟨rfl, rfl, rfl⟩

/-- C2 (counterexample): a retried `joinRoom` by the same joiner does not
return the existing session identifier: the room holds session `"s1"`, yet
the retry returns its freshly generated `"s2"` and overwrites the stored
session id. -/
theorem C2_counterexample_retry_new_session :
    ((joinRoom (createRoom "u1") "u2" "s1" 100).1).sessionId = some "s1" ∧
    (joinRoom ((joinRoom (createRoom "u1") "u2" "s1" 100).1) "u2" "s2" 200).2 ≠ "s1" ∧
    ((joinRoom ((joinRoom (createRoom "u1") "u2" "s1" 100).1) "u2" "s2" 200).1).sessionId
      = some "s2" := by
  refine ⟨rfl, ?_, rfl⟩
  decide

/-- C2 (amended): a retried `joinRoom` by the joiner already recorded on the
room succeeds (it never errors), but it returns the freshly generated session
identifier and overwrites the stored one, rather than returning the existing
session identifier. -/
theorem C2_retry_returns_fresh_session (room : Room) (u sFresh : String) (t : Int)
    (_hJoined : room.joinedBy = some u) :
    (joinRoom room u sFresh t).2 = sFresh ∧
    ((joinRoom room u sFresh t).1).sessionId = some sFresh ∧
    ((joinRoom room u sFresh t).1).joinedBy = some u :=
  ⟨rfl, rfl, rfl⟩

/-- C2 (witness): the amended retry behaviour at a concrete room joined by
`"u2"` with session `"s1"`, retried with fresh session `"s2"`. -/
theorem C2_retry_returns_fresh_session_witness :
    (joinRoom ((joinRoom (createRoom "u1") "u2" "s1" 100).1) "u2" "s2" 200).2 = "s2" ∧
    ((joinRoom ((joinRoom (createRoom "u1") "u2" "s1" 100).1) "u2" "s2" 200).1).sessionId
      = some "s2" ∧
    ((joinRoom ((joinRoom (createRoom "u1") "u2" "s1" 100).1) "u2" "s2" 200).1).joinedBy
      = some "u2" :=
  C2_retry_returns_fresh_session ((joinRoom (createRoom "u1") "u2" "s1" 100).1)
    "u2" "s2" 200 rfl

/-- C3 (counterexample): `endRoom` is not a no-op after the first `ended`
transition. Ending at clock 5000 stores duration 4; a second `endRoom` at
clock 9000 rewrites the stored duration to 8, so the two calls do not leave
the same terminal duration. -/
theorem C3_counterexample_end_twice_changes_duration :
    (endRoom ((joinRoom (createRoom "u1") "u2" "s1" 1000).1) 1000 none 5000).duration
      = some 4 ∧
    (endRoom (endRoom ((joinRoom (createRoom "u1") "u2" "s1" 1000).1) 1000 none 5000)
        1000 none 9000).duration = some 8 ∧
    endRoom (endRoom ((joinRoom (createRoom "u1") "u2" "s1" 1000).1) 1000 none 5000)
        1000 none 9000
      ≠ endRoom ((joinRoom (createRoom "u1") "u2" "s1" 1000).1) 1000 none 5000 := by
  refine ⟨by decide, by decide, by decide⟩

/-- C3 (amended): every `endRoom` call — including calls after the room is
already `ended` — stores duration `⌊(now − startedAtMs)/1000⌋` recomputed
from that call's own clock reading, so a call after the first `ended`
transition is not in general a no-op and can change the stored terminal
duration; a repeated call with the same `startedAtMs` and the same clock
reading is an exact no-op. -/
theorem C3_endRoom_recomputes_duration (room : Room) (s : Int) (url : Option String)
    (n1 n2 : Int) :
    (endRoom room s url n1).duration = some (Int.fdiv (n1 - s) 1000) ∧
    (endRoom (endRoom room s url n1) s url n2).duration
      = some (Int.fdiv (n2 - s) 1000) ∧
    endRoom (endRoom room s url n1) s url n1 = endRoom room s url n1 := by
  refine ⟨rfl, rfl, ?_⟩
  cases h : truthyStr url <;> simp [endRoom, h]

/-- C4 (counterexample): the operation `joinRoom` performs no status check,
so the sequence `endRoom` then `joinRoom` moves a room from `ended` back to
`active`. -/
theorem C4_counterexample_ended_to_active :
    (endRoom (createRoom "u1") 1000 none 5000).status = .ended ∧
    (applyOp (endRoom (createRoom "u1") 1000 none 5000)
        (.join "u2" "s1" 6000)).status = .active := by
  exact ⟨rfl, rfl⟩

/-- Per-step lemma: along the validated path (joins guarded by a successful
`validateRoom` on the current room state) the status rank never decreases. -/
theorem statusRank_le_guardedApplyOp (room : Room) (op : RoomOp) :
    statusRank room.status ≤ statusRank (guardedApplyOp room op).status := by
  cases op with
  | join u s t =>
    unfold guardedApplyOp
    cases hv : validateRoom (some room) u with
    | error e => simp [hv]
    | ok r =>
      have hne : room.status ≠ .ended := by
        intro hend
        simp [validateRoom, hend] at hv
      cases hstat : room.status with
      | waiting => simp [hv, hstat, joinRoom, statusRank]
      | active => simp [hv, hstat, joinRoom, statusRank]
      | ended => exact absurd hstat hne
  | endCall st url now =>
    cases room.status <;> simp [guardedApplyOp, endRoom, statusRank]

/-- C4 (amended): the documented forward order `waiting → active → ended`
holds only along the validated path: when every join is attempted only after
`validateRoom` succeeds on the current room state (the advisory check-then-act
pair of the lobby flow), no sequence of operations ever decreases the status
rank. The raw `joinRoom` alone can move `ended` back to `active`, because it
performs no status check. -/
theorem C4_guarded_status_monotone (room : Room) (ops : List RoomOp) :
    statusRank room.status ≤ statusRank (ops.foldl guardedApplyOp room).status := by
  induction ops generalizing room with
  | nil => simp
  | cons op rest ih =>
    rw [List.foldl_cons]
    exact le_trans (statusRank_le_guardedApplyOp room op) (ih (guardedApplyOp room op))

/-- C6 (counterexample): `endRoom` does not clamp clock skew. With
`startedAtMs = 1000` and `now = 0` the persisted duration is `-1`, a negative
number, not `0`. -/
theorem C6_counterexample_negative_duration :
    (endRoom (createRoom "u1") 1000 none 0).duration = some (-1) ∧
    ¬ (endRoom (createRoom "u1") 1000 none 0).duration = some 0 := by
  refine ⟨by decide, by decide⟩

/-- C6 (amended): at every `endRoom` call the stored duration equals
`⌊(now − startedAtMs) / 1000⌋` seconds and the status becomes `ended` (so the
happy-path scenario `now = 5000`, `startedAtMs = 1000` stores 4), but there is
no clamping: whenever `now < startedAtMs` the persisted duration is strictly
negative, not zero. -/
theorem C6_duration_formula_no_clamp (room : Room) (s now : Int)
    (url : Option String) :
    (endRoom room s url now).duration = some (Int.fdiv (now - s) 1000) ∧
    (endRoom room s url now).status = .ended ∧
    (now < s → Int.fdiv (now - s) 1000 < 0) := by
  refine ⟨rfl, rfl, fun h => ?_⟩
  exact Int.fdiv_neg' (by omega) (by norm_num)

/-- C6 (witness): the amended duration formula at the spec's scenario input —
`startedAtMs = 1000`, `now = 5000` — where it stores `⌊4000/1000⌋ = 4`. -/
theorem C6_duration_formula_no_clamp_witness :
    (endRoom (createRoom "u1") 1000 none 5000).duration
      = some (Int.fdiv (5000 - 1000) 1000) ∧
    (endRoom (createRoom "u1") 1000 none 5000).status = .ended ∧
    ((5000 : Int) < 1000 → Int.fdiv ((5000 : Int) - 1000) 1000 < 0) :=
  C6_duration_formula_no_clamp (createRoom "u1") 1000 5000 none

/-- Helper: the applied-candidate set only gains a candidate at its own
delivery event — if `c` is not applied yet and no event in the stream
delivers `c`, then `c` is still unapplied after processing the stream. -/
theorem not_applied_of_not_delivered (c : IceCandidate) :
    ∀ (evs : List CallerEvent) (st : CallerNegotiation),
      c ∉ st.pc.appliedCandidates →
      (∀ ev ∈ evs, ev ≠ CallerEvent.calleeCandidateAdded c) →
      c ∉ (evs.foldl callerStep st).pc.appliedCandidates := by
  intro evs
  induction evs with
  | nil =>
    intro st h _
    simpa using h
  | cons ev rest ih =>
    intro st h hevs
    rw [List.foldl_cons]
    refine ih (callerStep st ev) ?_ (fun e he => hevs e (List.mem_cons_of_mem _ he))
    cases ev with
    | answerSnapshot a =>
      unfold callerStep onAnswerSnapshot
      cases st.pc.remoteDescription <;> simpa using h
    | calleeCandidateAdded c2 =>
      have hne : c2 ≠ c := by
        intro hc
        exact (hevs _ (List.mem_cons_self _ _)) (by rw [hc])
      unfold callerStep onCalleeCandidateAdded addIceCandidate
      cases st.pc.remoteDescription with
      | none => simpa using h
      | some d =>
        simp only [List.mem_append, List.mem_singleton]
        intro hmem
        cases hmem with
        | inl hmem => exact h hmem
        | inr hmem => exact hne hmem.symm

/-- C5 (counterexample): the caller's candidate listener does not buffer. A
callee candidate delivered before the answer is rejected by the connection
object and recorded nowhere but the drop list; after the answer snapshot sets
the remote description, the applied-candidate set is still empty — the
candidate was silently dropped, not replayed. -/
theorem C5_counterexample_candidate_not_replayed :
    (callerStep
        (callerStep
          { pc := { remoteDescription := none, appliedCandidates := [] }
          , droppedCandidates := [] }
          (.calleeCandidateAdded
            { candidate := "candidate:0", sdpMid := some "0", sdpMLineIndex := some 0 }))
        (.answerSnapshot { descType := "answer", sdp := "B" })).pc.remoteDescription
      = some { descType := "answer", sdp := "B" } ∧
    (callerStep
        (callerStep
          { pc := { remoteDescription := none, appliedCandidates := [] }
          , droppedCandidates := [] }
          (.calleeCandidateAdded
            { candidate := "candidate:0", sdpMid := some "0", sdpMLineIndex := some 0 }))
        (.answerSnapshot { descType := "answer", sdp := "B" })).pc.appliedCandidates
      = [] ∧
    (callerStep
        (callerStep
          { pc := { remoteDescription := none, appliedCandidates := [] }
          , droppedCandidates := [] }
          (.calleeCandidateAdded
            { candidate := "candidate:0", sdpMid := some "0", sdpMLineIndex := some 0 }))
        (.answerSnapshot { descType := "answer", sdp := "B" })).droppedCandidates
      = [{ candidate := "candidate:0", sdpMid := some "0", sdpMLineIndex := some 0 }] := by
  refine ⟨rfl, rfl, rfl⟩

/-- C5 (amended): a remote candidate delivered to the caller's listener before
the remote description is applied is handed straight to `addIceCandidate`,
rejected, and recorded only as dropped; the applied set is unchanged, and no
later event — including the answer snapshot that sets the description — ever
applies it (unless the store re-delivers the same candidate). There is no
local queue and no replay. -/
theorem C5_pre_description_candidate_dropped (st : CallerNegotiation)
    (c : IceCandidate) (evs : List CallerEvent)
    (hdesc : st.pc.remoteDescription = none)
    (hnew : c ∉ st.pc.appliedCandidates)
    (hnoredeliver : ∀ ev ∈ evs, ev ≠ CallerEvent.calleeCandidateAdded c) :
    (callerStep st (.calleeCandidateAdded c)).droppedCandidates
      = st.droppedCandidates ++ [c] ∧
    (callerStep st (.calleeCandidateAdded c)).pc.appliedCandidates
      = st.pc.appliedCandidates ∧
    c ∉ (evs.foldl callerStep (callerStep st (.calleeCandidateAdded c))).pc.appliedCandidates := by
  have hstep : callerStep st (.calleeCandidateAdded c)
      = { st with droppedCandidates := st.droppedCandidates ++ [c] } := by
    unfold callerStep onCalleeCandidateAdded addIceCandidate
    rw [hdesc]
  refine ⟨by rw [hstep], by rw [hstep], ?_⟩
  refine not_applied_of_not_delivered c evs _ ?_ hnoredeliver
  rw [hstep]
  exact hnew

/-- C5 (witness): the amended drop behaviour at a concrete pre-description
candidate followed by the answer snapshot. -/
theorem C5_pre_description_candidate_dropped_witness :
    (callerStep
        { pc := { remoteDescription := none, appliedCandidates := [] }
        , droppedCandidates := [] }
        (.calleeCandidateAdded
          { candidate := "candidate:0", sdpMid := some "0", sdpMLineIndex := some 0 })).droppedCandidates
      = [] ++ [{ candidate := "candidate:0", sdpMid := some "0", sdpMLineIndex := some 0 }] ∧
    (callerStep
        { pc := { remoteDescription := none, appliedCandidates := [] }
        , droppedCandidates := [] }
        (.calleeCandidateAdded
          { candidate := "candidate:0", sdpMid := some "0", sdpMLineIndex := some 0 })).pc.appliedCandidates
      = [] ∧
    { candidate := "candidate:0", sdpMid := some "0", sdpMLineIndex := some (0 : Int) }
      ∉ ([CallerEvent.answerSnapshot { descType := "answer", sdp := "B" }].foldl callerStep
          (callerStep
            { pc := { remoteDescription := none, appliedCandidates := [] }
            , droppedCandidates := [] }
            (.calleeCandidateAdded
              { candidate := "candidate:0", sdpMid := some "0", sdpMLineIndex := some 0 }))).pc.appliedCandidates :=
  C5_pre_description_candidate_dropped
    { pc := { remoteDescription := none, appliedCandidates := [] }
    , droppedCandidates := [] }
    { candidate := "candidate:0", sdpMid := some "0", sdpMLineIndex := some 0 }
    [CallerEvent.answerSnapshot { descType := "answer", sdp := "B" }]
    rfl (by simp) (by decide)

/-- Helper: the wait branch of `createAnswer` resolves with the first offer
the snapshot stream carries, skipping missing documents and offer-less
snapshots. -/
theorem resolveOffer_first_appearance (o : SessionDescription) (data : SignalData)
    (hoffer : data.offer = some o) :
    ∀ (pre : List (Option SignalData)),
      (∀ s ∈ pre, ∀ d, s = some d → d.offer = none) →
      ∀ post, resolveOfferFromSnapshots (pre ++ some data :: post)
        = .viaSubscription o := by
  intro pre
  induction pre with
  | nil =>
    intro _ post
    simp [resolveOfferFromSnapshots, hoffer]
  | cons s rest ih =>
    intro hpre post
    cases s with
    | none =>
      rw [List.cons_append]
      unfold resolveOfferFromSnapshots
      exact ih (fun x hx => hpre x (List.mem_cons_of_mem _ hx)) post
    | some d =>
      have hd : d.offer = none := hpre (some d) (List.mem_cons_self _ _) d rfl
      rw [List.cons_append]
      unfold resolveOfferFromSnapshots
      rw [hd]
      exact ih (fun x hx => hpre x (List.mem_cons_of_mem _ hx)) post

/-- C7: the callee's offer acquisition in `createAnswer` resolves immediately
(via the initial `getDoc`, without subscribing) whenever the stored document
already carries an offer — so calling it after the offer was published never
hangs — and otherwise it subscribes and resolves with the offer's first
appearance in the snapshot stream. -/
theorem C7_awaitOffer_immediate_or_first (data : SignalData) (o : SessionDescription)
    (snaps : List (Option SignalData)) (doc0 : Option SignalData)
    (pre post : List (Option SignalData))
    (hoffer : data.offer = some o)
    (hdoc0 : ∀ d, doc0 = some d → d.offer = none)
    (hpre : ∀ s ∈ pre, ∀ d, s = some d → d.offer = none) :
    awaitOffer (some data) snaps = .immediate o ∧
    awaitOffer doc0 (pre ++ some data :: post) = .viaSubscription o := by
  constructor
  · simp [awaitOffer, hoffer]
  · cases doc0 with
    | none =>
      exact resolveOffer_first_appearance o data hoffer pre hpre post
    | some d0 =>
      have hd0 : d0.offer = none := hdoc0 d0 rfl
      simp only [awaitOffer, hd0]
      exact resolveOffer_first_appearance o data hoffer pre hpre post

/-- C7 (witness): an offer `{type:"offer", sdp:"A"}` already present resolves
immediately; absent at call time, it resolves via the subscription at its
first appearance after an empty snapshot. -/
theorem C7_awaitOffer_immediate_or_first_witness :
    awaitOffer (some { offer := some { descType := "offer", sdp := "A" }, answer := none }) []
      = .immediate { descType := "offer", sdp := "A" } ∧
    awaitOffer none
        ([none] ++ some { offer := some { descType := "offer", sdp := "A" }, answer := none } :: [])
      = .viaSubscription { descType := "offer", sdp := "A" } :=
  C7_awaitOffer_immediate_or_first
    { offer := some { descType := "offer", sdp := "A" }, answer := none }
    { descType := "offer", sdp := "A" } [] none [none] [] rfl
    (fun d h => by cases h)
    (fun s hs d hd => by
      simp only [List.mem_singleton] at hs
      rw [hs] at hd
      cases hd)

/-- C8 (counterexample): the offer write of `createOffer` is an unconditional
`setDoc`. On a signal document that already holds an offer (and an answer), a
second publish succeeds and replaces the document — previous offer silently
overwritten, stored answer reset to `null`, no assert and no failure. -/
theorem C8_counterexample_offer_overwritten :
    publishOffer
        (some { offer := some { descType := "offer", sdp := "A" }
              , answer := some { descType := "answer", sdp := "B" } })
        { descType := "offer", sdp := "C" }
      = { offer := some { descType := "offer", sdp := "C" }, answer := none } ∧
    (publishOffer
        (some { offer := some { descType := "offer", sdp := "A" }
              , answer := some { descType := "answer", sdp := "B" } })
        { descType := "offer", sdp := "C" }).offer
      ≠ some { descType := "offer", sdp := "A" } := by
  refine ⟨rfl, by decide⟩

/-- C8 (amended): the offer write in `createOffer` never fails and is not
once-only: for every current document state it unconditionally replaces the
signal document with the new offer and a `null` answer, silently overwriting
any previously stored offer and answer. -/
theorem C8_publishOffer_unconditional (cur : Option SignalData)
    (o : SessionDescription) :
    publishOffer cur o = { offer := some o, answer := none } :=
  rfl

/-- C9: once `createPeerConnection` has created the connection, every further
call returns the existing connection and leaves the service state — including
the originally registered `onRemoteTrack` callback carried by that
connection — completely unchanged; the newly supplied callback is ignored and
no second connection is created. -/
theorem C9_createPeerConnection_reuses (st : WebRTCServiceState)
    (p : PeerConnectionObj) (newCb freshId : Nat)
    (hpc : st.pc = some p) :
    createPeerConnection st newCb freshId = (st, p) ∧
    (createPeerConnection st newCb freshId).2.onRemoteTrackCb = p.onRemoteTrackCb := by
  unfold createPeerConnection
  rw [hpc]
  exact ⟨rfl, rfl⟩

/-- C9 (witness): a service already holding connection 1 with callback 7,
asked again with callback 9 and fresh id 2, returns connection 1 with
callback 7 and an unchanged state. -/
theorem C9_createPeerConnection_reuses_witness :
    createPeerConnection { pc := some { pcId := 1, onRemoteTrackCb := 7 } } 9 2
      = ({ pc := some { pcId := 1, onRemoteTrackCb := 7 } }
        , { pcId := 1, onRemoteTrackCb := 7 }) ∧
    (createPeerConnection { pc := some { pcId := 1, onRemoteTrackCb := 7 } } 9 2).2.onRemoteTrackCb
      = ({ pcId := 1, onRemoteTrackCb := 7 } : PeerConnectionObj).onRemoteTrackCb :=
  C9_createPeerConnection_reuses { pc := some { pcId := 1, onRemoteTrackCb := 7 } }
    { pcId := 1, onRemoteTrackCb := 7 } 9 2 rfl

/-- C10: whatever the hook state before the call — streams present or not,
any toggle state — after `hangUp` the exposed state has status `ended`, both
stream slots `null`, and both controls disabled. -/
theorem C10_hangUp_postcondition (st : UseWebRTCState) :
    (hangUp st).callState.status = .ended ∧
    (hangUp st).localStream = none ∧
    (hangUp st).remoteStream = none ∧
    (hangUp st).controls = { isMicEnabled := false, isCameraEnabled := false } := by
  cases hl : st.localStream <;> cases hr : st.remoteStream <;>
    simp [hangUp, hl, hr]

end AIProctoring
